import Mathlib

/-!
Verification of the order-execution engine of the trade_automation repository.

The definitions below are shallow embeddings of the Python source:
`src/logic.py` (class `AppLogic`, the module instantiated by `src/app.py`)
and `src/logic_worker_mixin.py` (class `AppWorkerMixin`, an alternate
implementation of the same worker steps).  SQLite rows become structures,
the broker HTTP layer becomes explicit oracles passed as arguments, and
Python truthiness on optional values is modelled explicitly.
-/

namespace TradeAutomation

/-- Order side, the `side` column of `batch_items` (`'buy'` / `'sell'`). -/
inductive Side
  | buy
  | sell
  deriving DecidableEq, Repr

/-- Product kind, the `product` column of `batch_items` (`'cash'` / `'margin'`). -/
inductive Product
  | cash
  | margin
  deriving DecidableEq, Repr

/-- Status values written to `batch_items.status` by the engine. -/
inductive ItemStatus
  | READY
  | ENTRY_SENT
  | ENTRY_PARTIAL
  | ENTRY_FILLED
  | ENTRY_FILLED_WAIT_PRICE
  | BRACKET_SENT
  | EOD_MARKET_SENT
  | CLOSED
  | ERROR
  | CANCELLED
  deriving DecidableEq, Repr

/-- Status values written to `batch_jobs.status`. -/
inductive JobStatus
  | SCHEDULED
  | RUNNING
  | DONE
  | ERROR
  | CANCELLED
  deriving DecidableEq, Repr

/-- Status values written to `orders.status` (`_order_status_from_api` plus `'NEW'`). -/
inductive OrderStatus
  | NEW
  | WORKING
  | PARTIAL
  | FILLED
  | CANCELLED
  | UNKNOWN
  deriving DecidableEq, Repr

/-- Python truthiness of an optional string column (`None` and `''` are falsy). -/
def pyTruthyOptStr : Option String → Bool
  | none => false
  | some s => s ≠ ""

/-- Python truthiness of an optional numeric column (`None` and `0` are falsy). -/
def pyTruthyOptQ : Option ℚ → Bool
  | none => false
  | some q => q ≠ 0

/-- One row of `batch_items`, restricted to the columns the worker steps read
and write.  Quantities are SQLite integers, prices are modelled as rationals. -/
structure BatchItem where
  id : Nat
  product : Product
  side : Side
  status : ItemStatus
  entry_order_id : Option String
  tp_order_id : Option String
  sl_order_id : Option String
  eod_order_id : Option String
  entry_filled_qty : Int
  closed_qty : Int
  entry_avg_price : Option ℚ
  entry_price : Option ℚ
  tp_price : ℚ
  sl_trigger_price : ℚ
  hold_id : Option String
  last_error : Option String
  deriving DecidableEq, Repr

/-! ## Job finalization (`_finalize_jobs_step`, src/logic.py lines 1750-1767) -/

/-- Embedding of `_finalize_jobs_step` applied to one job: jobs are selected by
`WHERE status='RUNNING'`; item statuses are aggregated; `total > 0` and
`closed == total` gives `DONE`, else `errors > 0` gives `ERROR`. -/
def finalize_job (jobStatus : JobStatus) (items : List ItemStatus) : JobStatus :=
  if jobStatus = JobStatus.RUNNING then
    if 0 < items.length ∧
        (items.filter (fun s => decide (s = ItemStatus.CLOSED))).length = items.length then
      JobStatus.DONE
    else if 0 < (items.filter (fun s => decide (s = ItemStatus.ERROR))).length then
      JobStatus.ERROR
    else jobStatus
  else jobStatus

/-- If some element of a list falsifies the filter predicate, the filtered
list is strictly shorter than the original. -/
theorem length_filter_lt_of_mem_not_pred {α : Type} (p : α → Bool) {l : List α} {a : α}
    (ha : a ∈ l) (hpa : p a = false) : (l.filter p).length < l.length := by
  induction l with
  | nil => cases ha
  | cons x xs ih =>
    rcases List.mem_cons.mp ha with h | h
    · subst h
      rw [List.filter_cons_of_neg (by simp [hpa])]
      exact Nat.lt_succ_of_le (List.length_filter_le p xs)
    · by_cases hx : p x
      · rw [List.filter_cons_of_pos hx]
        simpa using Nat.succ_lt_succ (ih h)
      · rw [List.filter_cons_of_neg hx]
        exact Nat.lt_succ_of_lt (ih h)

/-- C8: a RUNNING job with at least one item becomes DONE when all items are
CLOSED, becomes ERROR when at least one item is ERROR (regardless of the
others), and a job already in DONE or ERROR is never re-examined. -/
theorem c8_finalize_job (items : List ItemStatus) (s : JobStatus)
    (hne : items ≠ []) :
    ((∀ i ∈ items, i = ItemStatus.CLOSED) → finalize_job JobStatus.RUNNING items = JobStatus.DONE) ∧
    ((∃ i ∈ items, i = ItemStatus.ERROR) → finalize_job JobStatus.RUNNING items = JobStatus.ERROR) ∧
    (s = JobStatus.DONE ∨ s = JobStatus.ERROR → finalize_job s items = s) := by
  refine ⟨?_, ?_, ?_⟩
  · intro hall
    have hfilter : items.filter (fun s => decide (s = ItemStatus.CLOSED)) = items := by
      apply List.filter_eq_self.mpr
      intro a ha
      simpa using hall a ha
    have hpos : 0 < items.length := List.length_pos.mpr hne
    unfold finalize_job
    rw [if_pos rfl, hfilter, if_pos ⟨hpos, rfl⟩]
  · rintro ⟨i, hi, rfl⟩
    have hclosed : (items.filter (fun s => decide (s = ItemStatus.CLOSED))).length < items.length :=
      length_filter_lt_of_mem_not_pred _ hi (by decide)
    have herr : 0 < (items.filter (fun s => decide (s = ItemStatus.ERROR))).length := by
      apply List.length_pos.mpr
      intro hnil
      have hmem : ItemStatus.ERROR ∈ items.filter (fun s => decide (s = ItemStatus.ERROR)) := by
        rw [List.mem_filter]
        exact ⟨hi, by decide⟩
      rw [hnil] at hmem
      cases hmem
    unfold finalize_job
    rw [if_pos rfl, if_neg (by intro h; exact absurd h.2 (Nat.ne_of_lt hclosed)), if_pos herr]
  · rintro (rfl | rfl) <;> simp [finalize_job]

/-- Witness for C8 at a concrete job: two CLOSED items finalize to DONE, a
mixed ERROR item finalizes to ERROR, and a DONE job is left unchanged. -/
theorem c8_finalize_job_witness :
    finalize_job JobStatus.RUNNING [ItemStatus.CLOSED, ItemStatus.CLOSED] = JobStatus.DONE ∧
    finalize_job JobStatus.RUNNING [ItemStatus.CLOSED, ItemStatus.ERROR] = JobStatus.ERROR ∧
    finalize_job JobStatus.DONE [ItemStatus.READY] = JobStatus.DONE := by
  refine ⟨?_, ?_, ?_⟩
  · exact (c8_finalize_job [ItemStatus.CLOSED, ItemStatus.CLOSED] JobStatus.DONE (by decide)).1
      (by intro i hi; fin_cases hi <;> rfl)
  · exact (c8_finalize_job [ItemStatus.CLOSED, ItemStatus.ERROR] JobStatus.DONE (by decide)).2.1
      ⟨ItemStatus.ERROR, by decide, rfl⟩
  · exact (c8_finalize_job [ItemStatus.READY] JobStatus.DONE (by decide)).2.2 (Or.inl rfl)

/-! ## API account save (`save_api_account`, src/logic.py lines 473-500) -/

/-- One row of `api_accounts`, restricted to the columns `save_api_account`
touches. -/
structure AccountRow where
  name : String
  base_url : String
  api_password_enc : String
  is_active : Bool
  deriving DecidableEq, Repr

/-- Embedding of `UPDATE api_accounts SET is_active=0 WHERE is_active=1`. -/
def deactivate_all (rows : List AccountRow) : List AccountRow :=
  rows.map (fun r => if r.is_active then { r with is_active := false } else r)

/-- Embedding of `save_api_account`: empty name, base URL, or password aborts before any
write (`none`); otherwise all previously active rows are cleared and a new
row is inserted with `is_active = 1 if active else 0`. -/
def save_api_account (rows : List AccountRow) (name base_url pw : String)
    (active : Bool) : Option (List AccountRow) :=
  if name = "" ∨ base_url = "" ∨ pw = "" then none
  else some (deactivate_all rows ++ [⟨name, base_url, pw, active⟩])

/-- The number of rows with `is_active = 1`. -/
def activeCount (rows : List AccountRow) : Nat :=
  (rows.filter (fun r => r.is_active)).length

/-- C4 counterexample: the claim says every successful save leaves exactly
one active account, but saving with the active checkbox cleared succeeds and
leaves zero active accounts. -/
theorem c4_counterexample :
    (save_api_account [⟨"a", "u", "p", true⟩] "n" "u2" "p2" false).isSome = true ∧
    activeCount ((save_api_account [⟨"a", "u", "p", true⟩] "n" "u2" "p2" false).getD []) ≠ 1 := by
  constructor
  · rfl
  · decide

/-- Deactivating every row leaves no active row. -/
theorem activeCount_deactivate_all (rows : List AccountRow) :
    activeCount (deactivate_all rows) = 0 := by
  unfold activeCount deactivate_all
  induction rows with
  | nil => rfl
  | cons r rs ih =>
    rw [List.map_cons]
    by_cases hr : r.is_active
    · rw [if_pos hr, List.filter_cons_of_neg (by simp)]
      exact ih
    · rw [if_neg hr, List.filter_cons_of_neg (by simpa using hr)]
      exact ih

/-- C4 (amended): a successful save clears every previously active account
and inserts the new row with the requested active flag, so afterwards the
number of active accounts is one when the flag is set and zero otherwise
(hence never more than one). -/
theorem c4_save_active_count (rows : List AccountRow) (name base_url pw : String)
    (active : Bool) (hn : name ≠ "") (hu : base_url ≠ "") (hp : pw ≠ "") :
    (save_api_account rows name base_url pw active).map activeCount =
      some (if active then 1 else 0) := by
  unfold save_api_account
  rw [if_neg (by push_neg; exact ⟨hn, hu, hp⟩)]
  rw [Option.map_some']
  congr 1
  unfold activeCount
  rw [List.filter_append, List.length_append]
  have h0 : activeCount (deactivate_all rows) = 0 := activeCount_deactivate_all rows
  unfold activeCount at h0
  rw [h0, Nat.zero_add]
  by_cases ha : active
  · subst ha
    rfl
  · simp only [Bool.not_eq_true] at ha
    subst ha
    rfl

/-- Witness for C4 at a concrete input: saving an active account over one
existing active row leaves exactly one active account. -/
theorem c4_save_active_count_witness :
    (save_api_account [⟨"a", "u", "p", true⟩] "n" "u2" "p2" true).map activeCount =
      some (if true then 1 else 0) :=
  c4_save_active_count [⟨"a", "u", "p", true⟩] "n" "u2" "p2" true
    (by decide) (by decide) (by decide)

/-! ## Order cancellation (`_cancel_order_if_needed`, src/logic.py lines 1644-1656) -/

/-- Result of the `PUT /cancelorder` HTTP request as seen by
`_cancel_order_if_needed`: success, an `HTTPError` response from the broker
(which carries the application rejection code, e.g. for an order that is
already filled or cancelled), or any other exception (URLError, timeouts and
connection failures land here). -/
inductive CancelHttpResult
  | okResp
  | httpRejected (code : Int)
  | transportFail (msg : String)
  deriving DecidableEq, Repr

/-- Embedding of `_cancel_order_if_needed`: a falsy order id or a missing token returns
silently; an `HTTPError` is re-raised as `RuntimeError`; every other
exception is swallowed. -/
def cancel_order_if_needed (orderId : Option String) (token : Option String)
    (resp : CancelHttpResult) : Except String Unit :=
  if ¬ pyTruthyOptStr orderId then Except.ok ()
  else if ¬ pyTruthyOptStr token then Except.ok ()
  else
    match resp with
    | CancelHttpResult.okResp => Except.ok ()
    | CancelHttpResult.httpRejected _ => Except.error ("取消API呼び出しに失敗")
    | CancelHttpResult.transportFail _ => Except.ok ()

/-- Whether the call surfaced an error to the caller. -/
def isErrResult : Except String Unit → Bool
  | Except.error _ => true
  | Except.ok _ => false

/-- Whether the HTTP layer answered with an `HTTPError` response. -/
def isHttpRejected : CancelHttpResult → Bool
  | CancelHttpResult.httpRejected _ => true
  | _ => false

/-- C9 counterexample: a broker-side HTTP rejection (the shape an
already-filled/already-cancelled condition takes) is surfaced as an error
rather than swallowed, and a transport failure is swallowed rather than
surfaced — the opposite of the claim on both sides. -/
theorem c9_counterexample :
    isErrResult (cancel_order_if_needed (some ("O1")) (some ("T")) (CancelHttpResult.httpRejected 4001234)) = true ∧
    isErrResult (cancel_order_if_needed (some ("O1")) (some ("T")) (CancelHttpResult.transportFail ("timed out"))) = false := by
  constructor <;> rfl

/-- C9 (amended): `cancelOrder` surfaces an error exactly when an order id
and a token are present and the broker answers with an HTTP error response
(including already-filled/cancelled rejections); missing id, missing token,
success, and non-HTTP failures such as transport timeouts are all silent. -/
theorem c9_cancel_error_iff (orderId token : Option String) (resp : CancelHttpResult) :
    isErrResult (cancel_order_if_needed orderId token resp) =
      (pyTruthyOptStr orderId && pyTruthyOptStr token && isHttpRejected resp) := by
  unfold cancel_order_if_needed
  cases hid : pyTruthyOptStr orderId
  · simp [isErrResult]
  · cases htok : pyTruthyOptStr token
    · simp [isErrResult]
    · cases resp <;> simp [isErrResult, isHttpRejected]

/-! ## Order placement with exchange-code fallback
(`_api_post_order`, src/logic.py lines 946-988) -/

/-- Result of one `POST /sendorder` attempt: success with an order id, or an
`HTTPError` whose body carries the stringified application error code
(`str(err_code)`; `none` when no code could be parsed). -/
inductive PostResult
  | success (orderId : String)
  | httpFail (code : Option String)
  deriving DecidableEq, Repr

/-- The fallback priority table `retry_candidates_by_exchange` followed by
the filter removing the originally requested code. -/
def retryCandidates (ex : Nat) : List Nat :=
  (if ex = 1 then [9, 27] else if ex = 9 then [27, 1] else if ex = 27 then [9, 1]
   else [1, 9, 27]).filter (fun e => e ≠ ex)

/-- The retry loop: each fallback exchange is tried in order; a success stops
the loop; an `HTTPError` on the last candidate surfaces the failure. -/
def runRetries (respond : Nat → PostResult) : List Nat → List Nat × Option String
  | [] => ([], none)
  | r :: rs =>
    match respond r with
    | PostResult.success oid => ([r], some oid)
    | PostResult.httpFail _ =>
      let rest := runRetries respond rs
      (r :: rest.1, rest.2)

/-- Embedding of `_api_post_order` viewed as the sequence of exchanges attempted and the
final outcome (`some orderId` on success, `none` when the failure is
surfaced as `RuntimeError`): the first attempt uses the payload's exchange;
on an `HTTPError` whose application code is `4001005` the same payload is
re-sent against the fallback exchanges; any other code surfaces at once. -/
def api_post_order (respond : Nat → PostResult) (ex : Nat) : List Nat × Option String :=
  match respond ex with
  | PostResult.success oid => ([ex], some oid)
  | PostResult.httpFail code =>
    if code = some ("4001005") ∧ retryCandidates ex ≠ [] then
      let rest := runRetries respond (retryCandidates ex)
      (ex :: rest.1, rest.2)
    else ([ex], none)

/-- C5: when the first attempt on exchange 1 is rejected with application
code 4001005, the payload is retried against 9 then 27, in that order,
before the failure is surfaced; the fallback priority table depends on the
originally requested exchange; any other rejection code surfaces without a
fallback attempt. -/
theorem c5_exchange_fallback (respond respond2 : Nat → PostResult)
    (code9 code27 otherCode : Option String)
    (h1 : respond 1 = PostResult.httpFail (some ("4001005")))
    (h9 : respond 9 = PostResult.httpFail code9)
    (h27 : respond 27 = PostResult.httpFail code27)
    (ho : otherCode ≠ some ("4001005"))
    (h2 : respond2 1 = PostResult.httpFail otherCode) :
    api_post_order respond 1 = ([1, 9, 27], none) ∧
    api_post_order respond2 1 = ([1], none) ∧
    retryCandidates 1 = [9, 27] ∧ retryCandidates 9 = [27, 1] ∧ retryCandidates 27 = [9, 1] := by
  refine ⟨?_, ?_, by decide, by decide, by decide⟩
  · simp only [api_post_order, h1]
    rw [if_pos (by decide)]
    have hr : retryCandidates 1 = [9, 27] := by decide
    rw [hr]
    simp [runRetries, h9, h27]
  · simp only [api_post_order, h2]
    rw [if_neg (by intro h; exact ho h.1)]

/-- Concrete responders for the C5 witness: exchange 1 rejects with code
4001005 and the fallbacks also reject; the second responder rejects with an
unrelated code. -/
def c5respond : Nat → PostResult := fun e =>
  if e = 1 then PostResult.httpFail (some ("4001005")) else PostResult.httpFail (some ("4001006"))

/-- Second concrete responder for the C5 witness. -/
def c5respond2 : Nat → PostResult := fun _ => PostResult.httpFail (some ("9999"))

/-- Witness for C5 at the concrete responders. -/
theorem c5_exchange_fallback_witness :
    api_post_order c5respond 1 = ([1, 9, 27], none) ∧
    api_post_order c5respond2 1 = ([1], none) ∧
    retryCandidates 1 = [9, 27] ∧ retryCandidates 9 = [27, 1] ∧ retryCandidates 27 = [9, 1] :=
  c5_exchange_fallback c5respond c5respond2 (some ("4001006")) (some ("4001006")) (some ("9999"))
    rfl rfl rfl (by decide) rfl

/-! ## Sync step (`_sync_orders_step`, src/logic.py lines 1284-1354):
entry-order status projection -/

/-- Embedding of `_order_status_from_api`: maps the broker's numeric `State` string onto
the local order-status vocabulary. -/
def order_status_from_api (state : String) : OrderStatus :=
  if state = "1" ∨ state = "2" then OrderStatus.WORKING
  else if state = "3" ∨ state = "4" then OrderStatus.PARTIAL
  else if state = "5" then OrderStatus.FILLED
  else if state = "6" ∨ state = "7" then OrderStatus.CANCELLED
  else OrderStatus.UNKNOWN

/-- One broker order snapshot after field extraction: the raw `State` string,
`CumQty` (`int(... or 0)`), and the average price computed by
`_extract_order_avg_price` (always positive when present). -/
structure ApiOrderSnap where
  state : String
  cum_qty : Int
  avg_price : Option ℚ
  deriving DecidableEq, Repr

/-- The item status derived from the entry order's synced status: `FILLED`
gives `ENTRY_FILLED` when a truthy average price is available and
`ENTRY_FILLED_WAIT_PRICE` otherwise; `PARTIAL` gives `ENTRY_PARTIAL`; every
other status gives `ENTRY_SENT`. -/
def sync_entry_item_status (st : OrderStatus) (avg : Option ℚ) : ItemStatus :=
  if st = OrderStatus.FILLED then
    if pyTruthyOptQ avg then ItemStatus.ENTRY_FILLED else ItemStatus.ENTRY_FILLED_WAIT_PRICE
  else if st = OrderStatus.PARTIAL then ItemStatus.ENTRY_PARTIAL
  else ItemStatus.ENTRY_SENT

/-- The `role == "entry"` branch of `_sync_orders_step` for one item: items
are selected by `WHERE bj.status='RUNNING'` with **no filter on the item's
own status**, and when the entry order id appears in the snapshot map the
item's status, `entry_filled_qty` and `entry_avg_price` are overwritten
unconditionally. -/
def sync_entry (jobStatus : JobStatus) (item : BatchItem)
    (snapshotOf : String → Option ApiOrderSnap) : BatchItem :=
  if jobStatus = JobStatus.RUNNING then
    match item.entry_order_id with
    | none => item
    | some oid =>
      match snapshotOf oid with
      | none => item
      | some o =>
        { item with
          status := sync_entry_item_status (order_status_from_api o.state) o.avg_price,
          entry_filled_qty := o.cum_qty,
          entry_avg_price := o.avg_price }
  else item

/-- A CLOSED item whose TP leg filled: entry order "E100" filled 100 at 500,
100 shares closed by the TP fill, job still RUNNING because a sibling item is
still open. -/
def c1item : BatchItem :=
  { id := 1, product := Product.cash, side := Side.buy, status := ItemStatus.CLOSED,
    entry_order_id := some ("E100"), tp_order_id := some ("E101"), sl_order_id := some ("E102"),
    eod_order_id := none, entry_filled_qty := 100, closed_qty := 100,
    entry_avg_price := some 500, entry_price := none, tp_price := 10,
    sl_trigger_price := -5, hold_id := none, last_error := none }

/-- The day's order snapshot still lists the filled entry order "E100". -/
def c1snapshotOf : String → Option ApiOrderSnap := fun oid =>
  if oid = "E100" then some { state := "5", cum_qty := 100, avg_price := some 500 }
  else none

/-- C1: evaluation at the failing input — the sync step rewrites a CLOSED
item of a RUNNING job back to ENTRY_FILLED from its entry order's broker
status, moving it out of a terminal state (after which no step can ever
close it again, since the OCO queries exclude items with bracket order ids
that are not in BRACKET_SENT). -/
theorem c1_sync_moves_item_out_of_closed :
    c1item.status = ItemStatus.CLOSED ∧
    (sync_entry JobStatus.RUNNING c1item c1snapshotOf).status = ItemStatus.ENTRY_FILLED := by
  constructor <;> rfl

/-! ## OCO close on a filled bracket leg
(`_oco_step`, src/logic.py lines 1626-1643) -/

/-- The update applied when a bracket leg reports `FILLED`: the item becomes
CLOSED and `closed_qty` is overwritten with the broker-reported cumulative
fill quantity of that leg (`int(row[...] or 0)`), with no clamp against
`entry_filled_qty`. -/
def oco_close_on_fill (item : BatchItem) (legCum : Option Int) : BatchItem :=
  { item with status := ItemStatus.CLOSED, closed_qty := legCum.getD 0 }

/-- The `remaining <= 0` branches of the EOD step and of `manual_close_item`
mark an item CLOSED without touching the quantity columns. -/
def mark_closed_no_fill (item : BatchItem) : BatchItem :=
  { item with status := ItemStatus.CLOSED }

/-- A BRACKET_SENT item with 100 shares filled on entry. -/
def c3item : BatchItem :=
  { id := 2, product := Product.cash, side := Side.buy, status := ItemStatus.BRACKET_SENT,
    entry_order_id := some ("E200"), tp_order_id := some ("E201"), sl_order_id := some ("E202"),
    eod_order_id := none, entry_filled_qty := 100, closed_qty := 0,
    entry_avg_price := some 500, entry_price := none, tp_price := 10,
    sl_trigger_price := -5, hold_id := none, last_error := none }

/-- C3 counterexample: when the broker reports a cumulative fill of 150 on
the TP leg of an item with `entry_filled_qty = 100`, the OCO close writes
`closed_qty = 150 > entry_filled_qty` — the code does not clamp the
broker-reported value, so the invariant is not maintained at every observed
point. -/
theorem c3_counterexample :
    ¬ ((oco_close_on_fill c3item (some 150)).closed_qty ≤
        (oco_close_on_fill c3item (some 150)).entry_filled_qty) := by
  decide

/-- C3 (amended): `closed_qty ≤ entry_filled_qty` holds after an OCO close
exactly under the assumption that the broker-reported cumulative fill
written to `closed_qty` is at most `entry_filled_qty` (the code trusts the
broker and does not clamp), and the quantity-free CLOSED transitions of the
EOD and manual-close paths preserve the invariant unconditionally. -/
theorem c3_close_quantity_invariant (item : BatchItem) (legCum : Option Int)
    (h0 : item.closed_qty ≤ item.entry_filled_qty)
    (h : legCum.getD 0 ≤ item.entry_filled_qty) :
    (oco_close_on_fill item legCum).closed_qty ≤
      (oco_close_on_fill item legCum).entry_filled_qty ∧
    (mark_closed_no_fill item).closed_qty ≤ (mark_closed_no_fill item).entry_filled_qty := by
  exact ⟨h, h0⟩

/-- Witness for C3 at a concrete input: a TP fill of 100 against 100 filled
shares keeps the invariant. -/
theorem c3_close_quantity_invariant_witness :
    (oco_close_on_fill c3item (some 100)).closed_qty ≤
      (oco_close_on_fill c3item (some 100)).entry_filled_qty ∧
    (mark_closed_no_fill c3item).closed_qty ≤ (mark_closed_no_fill c3item).entry_filled_qty :=
  c3_close_quantity_invariant c3item (some 100) (by decide) (by decide)

/-! ## OCO bracket pricing and placement
(`_validate_oco_prices`, src/logic.py lines 1099-1111;
`_oco_step`, src/logic.py lines 1483-1610) -/

/-- Embedding of `_validate_oco_prices`: `None` means the prices are accepted; a message
means rejection.  Non-positive prices are rejected first; then for a buy the
TP must sit above and the SL below the average, reversed for a sell. -/
def validate_oco_prices (side : Side) (avg tp_abs sl_abs : ℚ) : Option String :=
  if tp_abs ≤ 0 ∨ sl_abs ≤ 0 then some ("TP/SL価格が不正です")
  else
    match side with
    | Side.buy =>
      if ¬ (tp_abs > avg ∧ sl_abs < avg) then some ("買い注文のTP/SL方向が不正です") else none
    | Side.sell =>
      if ¬ (tp_abs < avg ∧ sl_abs > avg) then some ("売り注文のTP/SL方向が不正です") else none

/-- The quantity `qty = max(entry_filled_qty - closed_qty, 0)` computed at the top of the
per-item OCO loop. -/
def ocoQty (item : BatchItem) : Int :=
  max (item.entry_filled_qty - item.closed_qty) 0

/-- The average `avg = float(item["entry_avg_price"] or item["entry_price"] or 0)` with
Python truthiness (`None` and `0` fall through). -/
def ocoAvg (item : BatchItem) : ℚ :=
  if pyTruthyOptQ item.entry_avg_price then item.entry_avg_price.getD 0
  else if pyTruthyOptQ item.entry_price then item.entry_price.getD 0
  else 0

/-- What the per-item OCO loop decides to do before any broker interaction:
wait for a hold id, close an item with no remaining quantity, wait for a fill
price, mark the item ERROR on price validation failure, or proceed to place
the two bracket orders.  `placeBracket` is the only action that reaches
`_api_post_order`. -/
inductive OcoAction
  | waitHoldId
  | closeNoRemaining
  | waitPrice
  | markErr (msg : String)
  | placeBracket (tp_abs sl_abs : ℚ) (qty : Int)
  deriving DecidableEq, Repr

/-- The guard sequence of the per-item OCO loop, in source order: margin item
without a truthy hold id waits; zero remaining quantity closes; non-positive
average waits for the price; then the absolute TP/SL prices are computed from
the signed offsets and validated, and a validation error marks the item ERROR
before any order is placed. -/
def oco_item_action (item : BatchItem) : OcoAction :=
  if item.product = Product.margin ∧ ¬ pyTruthyOptStr item.hold_id then
    OcoAction.waitHoldId
  else if ocoQty item ≤ 0 then OcoAction.closeNoRemaining
  else if ocoAvg item ≤ 0 then OcoAction.waitPrice
  else
    match validate_oco_prices item.side (ocoAvg item)
        (ocoAvg item + item.tp_price) (ocoAvg item + item.sl_trigger_price) with
    | some e => OcoAction.markErr e
    | none =>
      OcoAction.placeBracket (ocoAvg item + item.tp_price)
        (ocoAvg item + item.sl_trigger_price) (ocoQty item)

/-- C6: accepted prices satisfy the direction law (buy: TP above and SL below
the average; sell: reversed), and an item whose computed prices fail
validation is marked ERROR by the OCO step without any bracket order being
placed. -/
theorem c6_direction_validation (side : Side) (avg tp sl : ℚ) (item : BatchItem) (e : String)
    (hhold : ¬ (item.product = Product.margin ∧ ¬ pyTruthyOptStr item.hold_id))
    (hqty : 0 < ocoQty item) (havg : 0 < ocoAvg item)
    (hval : validate_oco_prices item.side (ocoAvg item)
      (ocoAvg item + item.tp_price) (ocoAvg item + item.sl_trigger_price) = some e) :
    (validate_oco_prices side avg tp sl = none →
      (side = Side.buy → avg < tp ∧ sl < avg) ∧ (side = Side.sell → tp < avg ∧ avg < sl)) ∧
    oco_item_action item = OcoAction.markErr e := by
  constructor
  · intro hnone
    unfold validate_oco_prices at hnone
    by_cases hpos : tp ≤ 0 ∨ sl ≤ 0
    · rw [if_pos hpos] at hnone
      cases hnone
    · rw [if_neg hpos] at hnone
      constructor
      · rintro rfl
        simp only at hnone
        by_cases hdir : tp > avg ∧ sl < avg
        · exact ⟨hdir.1, hdir.2⟩
        · rw [if_pos hdir] at hnone
          cases hnone
      · rintro rfl
        simp only at hnone
        by_cases hdir : tp < avg ∧ sl > avg
        · exact ⟨hdir.1, hdir.2⟩
        · rw [if_pos hdir] at hnone
          cases hnone
  · unfold oco_item_action
    rw [if_neg hhold, if_neg (by omega), if_neg (by intro h; exact absurd (lt_of_lt_of_le havg h) (lt_irrefl 0)), hval]

/-- A cash buy item filled at 500 whose SL offset points the wrong way
(positive for a buy), so validation rejects the computed prices. -/
def c6item : BatchItem :=
  { id := 3, product := Product.cash, side := Side.buy, status := ItemStatus.ENTRY_FILLED,
    entry_order_id := some ("E300"), tp_order_id := none, sl_order_id := none,
    eod_order_id := none, entry_filled_qty := 100, closed_qty := 0,
    entry_avg_price := some 500, entry_price := none, tp_price := 10,
    sl_trigger_price := 5, hold_id := none, last_error := none }

/-- Witness for C6: a valid buy bracket (TP 510, SL 495 around 500) is
accepted, and the concrete item with an upward SL offset is marked ERROR
without an order placement. -/
theorem c6_direction_validation_witness :
    (validate_oco_prices Side.buy 500 510 495 = none →
      (Side.buy = Side.buy → (500 : ℚ) < 510 ∧ (495 : ℚ) < 500) ∧
      (Side.buy = Side.sell → (510 : ℚ) < 500 ∧ (500 : ℚ) < 495)) ∧
    oco_item_action c6item = OcoAction.markErr ("買い注文のTP/SL方向が不正です") :=
  c6_direction_validation Side.buy 500 510 495 c6item ("買い注文のTP/SL方向が不正です")
    (by decide) (by decide) (by norm_num [ocoAvg, c6item, pyTruthyOptQ])
    (by norm_num [validate_oco_prices, ocoAvg, c6item, pyTruthyOptQ])

/-! ## OCO bracket placement outcome (`_oco_step`, src/logic.py lines 1566-1610) -/

/-- Result of posting one bracket leg through `_api_post_order`: the broker
order id and resolved exchange, or the raised error message. -/
inductive LegResult
  | okLeg (orderId : String) (exchange : Nat)
  | failLeg (msg : String)
  deriving DecidableEq, Repr

/-- Whether posting the leg raised. -/
def legFailed : LegResult → Bool
  | LegResult.failLeg _ => true
  | _ => false

/-- Whether both legs succeeded but came back on different exchanges (the
`tp_exchange != sl_exchange` guard, which raises inside the same try block). -/
def legsMismatch : LegResult → LegResult → Bool
  | LegResult.okLeg _ ea, LegResult.okLeg _ eb => ea ≠ eb
  | _, _ => false

/-- The item row together with the order rows inserted by `_record_order`
during bracket placement. -/
structure BracketOutcome where
  item : BatchItem
  recorded : List (String × String)
  deriving DecidableEq, Repr

/-- The bracket-placement block of `_oco_step` for one item: TP is posted
first; SL is posted only if TP succeeded; a failure of either leg or an
exchange mismatch lands in the except-branch, which sets the item to ERROR
and records nothing (the success-path UPDATE that stores `tp_order_id` and
`sl_order_id` and the two `_record_order` inserts are never reached).  The
SL result argument is only meaningful when the TP leg succeeded. -/
def oco_place_bracket (item : BatchItem) (tpRes slRes : LegResult) : BracketOutcome :=
  match tpRes with
  | LegResult.failLeg e =>
    ⟨{ item with status := ItemStatus.ERROR, last_error := some e }, []⟩
  | LegResult.okLeg tpId tpEx =>
    match slRes with
    | LegResult.failLeg e =>
      ⟨{ item with status := ItemStatus.ERROR, last_error := some e }, []⟩
    | LegResult.okLeg slId slEx =>
      if tpEx ≠ slEx then
        ⟨{ item with status := ItemStatus.ERROR, last_error := some ("TP/SLの市場コードが不一致です") }, []⟩
      else
        ⟨{ item with status := ItemStatus.BRACKET_SENT, tp_order_id := some tpId, sl_order_id := some slId },
          [("tp", tpId), ("sl", slId)]⟩

/-- C7: starting from an item with no bracket order ids (the OCO query
selects only such items), the placement never leaves exactly one live leg:
the two order-id columns are always both set or both unset, and whenever
either leg fails (including TP succeeding and SL failing) or the exchanges
mismatch, the item is ERROR, both order-id columns stay empty, and no order
row is recorded for either leg. -/
theorem c7_no_partial_bracket (item : BatchItem) (tpRes slRes : LegResult)
    (htp : item.tp_order_id = none) (hsl : item.sl_order_id = none) :
    ((oco_place_bracket item tpRes slRes).item.tp_order_id.isSome =
      (oco_place_bracket item tpRes slRes).item.sl_order_id.isSome) ∧
    ((legFailed tpRes || legFailed slRes || legsMismatch tpRes slRes) = true →
      (oco_place_bracket item tpRes slRes).item.status = ItemStatus.ERROR ∧
      (oco_place_bracket item tpRes slRes).item.tp_order_id = none ∧
      (oco_place_bracket item tpRes slRes).item.sl_order_id = none ∧
      (oco_place_bracket item tpRes slRes).recorded = []) := by
  cases tpRes with
  | failLeg e =>
    refine ⟨?_, fun _ => ⟨rfl, htp, hsl, rfl⟩⟩
    show item.tp_order_id.isSome = item.sl_order_id.isSome
    rw [htp, hsl]
  | okLeg tpId tpEx =>
    cases slRes with
    | failLeg e =>
      refine ⟨?_, fun _ => ⟨rfl, htp, hsl, rfl⟩⟩
      show item.tp_order_id.isSome = item.sl_order_id.isSome
      rw [htp, hsl]
    | okLeg slId slEx =>
      by_cases hex : tpEx ≠ slEx
      · have hres : oco_place_bracket item (LegResult.okLeg tpId tpEx) (LegResult.okLeg slId slEx) =
            ⟨{ item with status := ItemStatus.ERROR, last_error := some ("TP/SLの市場コードが不一致です") }, []⟩ := by
          simp only [oco_place_bracket]
          rw [if_pos hex]
        rw [hres]
        refine ⟨?_, fun _ => ⟨rfl, htp, hsl, rfl⟩⟩
        show item.tp_order_id.isSome = item.sl_order_id.isSome
        rw [htp, hsl]
      · have hres : oco_place_bracket item (LegResult.okLeg tpId tpEx) (LegResult.okLeg slId slEx) =
            ⟨{ item with status := ItemStatus.BRACKET_SENT, tp_order_id := some tpId, sl_order_id := some slId },
              [("tp", tpId), ("sl", slId)]⟩ := by
          simp only [oco_place_bracket]
          rw [if_neg hex]
        rw [hres]
        refine ⟨rfl, fun hbad => ?_⟩
        exfalso
        simp only [legFailed, legsMismatch, Bool.false_or, decide_eq_true_eq] at hbad
        exact hex hbad

/-- Witness for C7: TP succeeds and SL fails on the c3 item (which has no
bracket ids recorded before placement in this scenario). -/
theorem c7_no_partial_bracket_witness :
    ((oco_place_bracket c6item (LegResult.okLeg ("T1") 1) (LegResult.failLeg ("boom"))).item.tp_order_id.isSome =
      (oco_place_bracket c6item (LegResult.okLeg ("T1") 1) (LegResult.failLeg ("boom"))).item.sl_order_id.isSome) ∧
    ((legFailed (LegResult.okLeg ("T1") 1) || legFailed (LegResult.failLeg ("boom")) ||
        legsMismatch (LegResult.okLeg ("T1") 1) (LegResult.failLeg ("boom"))) = true →
      (oco_place_bracket c6item (LegResult.okLeg ("T1") 1) (LegResult.failLeg ("boom"))).item.status = ItemStatus.ERROR ∧
      (oco_place_bracket c6item (LegResult.okLeg ("T1") 1) (LegResult.failLeg ("boom"))).item.tp_order_id = none ∧
      (oco_place_bracket c6item (LegResult.okLeg ("T1") 1) (LegResult.failLeg ("boom"))).item.sl_order_id = none ∧
      (oco_place_bracket c6item (LegResult.okLeg ("T1") 1) (LegResult.failLeg ("boom"))).recorded = []) :=
  c7_no_partial_bracket c6item (LegResult.okLeg ("T1") 1) (LegResult.failLeg ("boom")) rfl rfl

/-! ## Hold-id reconciliation
(`_sync_orders_step` position loop: src/logic.py lines 1356-1480 and
src/logic_worker_mixin.py lines 449-537) -/

/-- Embedding of `_is_valid_hold_id`: the normalized id must start with `"E"`.  The ids
reaching this check have already been stripped by `_normalize_hold_id` /
`_extract_position_hold_id`, so the re-strip inside the source is the
identity and the check is on the first character. -/
def is_valid_hold_id (holdId : String) : Bool :=
  match holdId.data with
  | [] => false
  | c :: _ => c = 'E'

/-- One row of the candidate query: margin items of RUNNING jobs with the
position's symbol, status in {ENTRY_FILLED, BRACKET_SENT, ENTRY_PARTIAL} and
no hold id yet, ordered by ascending id. -/
structure Candidate where
  id : Nat
  side : Side
  entry_filled_qty : Int
  closed_qty : Int
  deriving DecidableEq, Repr

/-- The quantity `remaining_qty = max(entry_filled_qty - closed_qty, 0)`. -/
def outstandingQty (c : Candidate) : Int :=
  max (c.entry_filled_qty - c.closed_qty) 0

/-- The side filter: a candidate is kept unless the position reports a side
and the candidate's differs. -/
def sideOk (positionSide : Option Side) (c : Candidate) : Bool :=
  match positionSide with
  | none => true
  | some s => c.side = s

/-- The list `side_filtered` in source order. -/
def sideFiltered (cs : List Candidate) (positionSide : Option Side) : List Candidate :=
  cs.filter (sideOk positionSide)

/-- The list `matched`: side-compatible candidates with positive outstanding quantity
equal to the position's `leaves_qty`, in source (ascending id) order. -/
def exactMatches (cs : List Candidate) (positionSide : Option Side) (leaves : Int) :
    List Candidate :=
  (sideFiltered cs positionSide).filter
    (fun c => decide (0 < outstandingQty c) && decide (outstandingQty c = leaves))

/-- What one position snapshot does to the candidate items: assign the hold
id to one item, leave every candidate unresolved with `last_error` annotated,
or skip the position without touching any item. -/
inductive ReconcileOutcome
  | assigned (itemId : Nat)
  | unresolvedAll (annotatedIds : List Nat)
  | skipped
  deriving DecidableEq, Repr

/-- The nearest-quantity fallback of `logic.py`: scan `side_filtered` in
order, skip candidates with no outstanding quantity, keep the candidate
minimizing `abs(remaining - leaves)` (the equal-diff smaller-id clause never
replaces during an ascending scan, so the first minimum wins). -/
def nearestPick (cs : List Candidate) (leaves : Int) : Option Candidate :=
  cs.foldl
    (fun best c =>
      if 0 < outstandingQty c then
        match best with
        | none => some c
        | some b =>
          if (outstandingQty c - leaves).natAbs < (outstandingQty b - leaves).natAbs ∨
              ((outstandingQty c - leaves).natAbs = (outstandingQty b - leaves).natAbs ∧
                c.id < b.id) then
            some c
          else best
      else best)
    none

/-- The position loop body of `AppLogic._sync_orders_step` (src/logic.py):
positions with a falsy symbol, falsy hold id or non-positive leaves quantity
are skipped, as are positions with no candidates or a malformed hold id;
when at least one exact match exists the FIRST match is assigned (even if
several match); otherwise the nearest-quantity candidate is assigned; only
when no side-compatible candidate has positive outstanding quantity is every
candidate annotated and left unresolved. -/
def reconcile_logic (symbol holdId : String) (leaves : Int) (positionSide : Option Side)
    (cs : List Candidate) : ReconcileOutcome :=
  if symbol = "" ∨ holdId = "" ∨ leaves ≤ 0 then ReconcileOutcome.skipped
  else if cs = [] then ReconcileOutcome.skipped
  else if ¬ is_valid_hold_id holdId then ReconcileOutcome.skipped
  else
    match exactMatches cs positionSide leaves with
    | m :: _ => ReconcileOutcome.assigned m.id
    | [] =>
      match nearestPick (sideFiltered cs positionSide) leaves with
      | some t => ReconcileOutcome.assigned t.id
      | none => ReconcileOutcome.unresolvedAll (cs.map Candidate.id)

/-- The position loop body of `AppWorkerMixin._sync_orders_step`
(src/logic_worker_mixin.py): same guards, but an item is assigned the hold id
only when `len(matched) == 1`; zero or multiple exact matches annotate every
candidate's `last_error` and leave all of them unresolved. -/
def reconcile_mixin (symbol holdId : String) (leaves : Int) (positionSide : Option Side)
    (cs : List Candidate) : ReconcileOutcome :=
  if symbol = "" ∨ holdId = "" ∨ leaves ≤ 0 then ReconcileOutcome.skipped
  else if cs = [] then ReconcileOutcome.skipped
  else if ¬ is_valid_hold_id holdId then ReconcileOutcome.skipped
  else
    match exactMatches cs positionSide leaves with
    | [t] => ReconcileOutcome.assigned t.id
    | _ => ReconcileOutcome.unresolvedAll (cs.map Candidate.id)

/-- The item id an outcome assigned, if any. -/
def assignedIdOf : ReconcileOutcome → Option Nat
  | ReconcileOutcome.assigned i => some i
  | _ => none

/-- Two margin candidates with the same symbol, same side and the same
outstanding quantity of 100. -/
def c2cands : List Candidate :=
  [{ id := 1, side := Side.buy, entry_filled_qty := 100, closed_qty := 0 },
   { id := 2, side := Side.buy, entry_filled_qty := 100, closed_qty := 0 }]

/-- C2 counterexample: against one position snapshot with leaves 100, BOTH
candidates match exactly, yet the reconciliation that the application
actually runs (`logic.AppLogic`, the class `app.py` instantiates) assigns
the hold id to the first candidate instead of leaving both unresolved. -/
theorem c2_counterexample :
    (exactMatches c2cands (some Side.buy) 100).length = 2 ∧
    reconcile_logic ("7203") ("E123") 100 (some Side.buy) c2cands = ReconcileOutcome.assigned 1 := by
  constructor <;> rfl

/-- C2 (amended): the exactly-one-match policy holds for the
`AppWorkerMixin` variant of the sync step: an item is assigned the hold id
precisely when exactly one candidate's outstanding quantity equals the
position's remaining quantity (and then it is that candidate), while zero or
multiple exact matches leave every candidate unresolved with `last_error`
annotated.  The `AppLogic` variant in `logic.py` — the one the application
runs — instead assigns the earliest exact match even when several match and
falls back to the nearest-quantity candidate when none match. -/
theorem c2_mixin_exact_unique_match (symbol holdId : String) (leaves : Int)
    (positionSide : Option Side) (cs : List Candidate)
    (hs : symbol ≠ "") (hh : holdId ≠ "") (hv : is_valid_hold_id holdId = true)
    (hl : 0 < leaves) (hc : cs ≠ []) :
    assignedIdOf (reconcile_mixin symbol holdId leaves positionSide cs) =
      (if (exactMatches cs positionSide leaves).length = 1 then
        (exactMatches cs positionSide leaves).head?.map Candidate.id
      else none) ∧
    ((exactMatches cs positionSide leaves).length ≠ 1 →
      reconcile_mixin symbol holdId leaves positionSide cs =
        ReconcileOutcome.unresolvedAll (cs.map Candidate.id)) := by
  have hguard1 : ¬ (symbol = "" ∨ holdId = "" ∨ leaves ≤ 0) := by
    push_neg
    exact ⟨hs, hh, by omega⟩
  unfold reconcile_mixin
  rw [if_neg hguard1, if_neg hc, if_neg (by rw [hv]; intro h; exact h rfl)]
  rcases hm : exactMatches cs positionSide leaves with _ | ⟨t, _ | ⟨u, rest⟩⟩
  · constructor
    · rw [if_neg (by decide)]
      rfl
    · intro _
      rfl
  · constructor
    · rw [if_pos (show List.length [t] = 1 from rfl)]
      rfl
    · intro hlen
      exact absurd rfl hlen
  · constructor
    · rw [if_neg (by simp)]
      rfl
    · intro _
      rfl

/-- Witness for C2 (amended) at a concrete input: one candidate of
outstanding quantity 100 against a position with leaves 100 is assigned, and
the two-candidate ambiguity from the counterexample scenario is left
unresolved by the mixin variant. -/
theorem c2_mixin_exact_unique_match_witness :
    (assignedIdOf (reconcile_mixin ("7203") ("E123") 100 (some Side.buy) c2cands) =
      (if (exactMatches c2cands (some Side.buy) 100).length = 1 then
        (exactMatches c2cands (some Side.buy) 100).head?.map Candidate.id
      else none) ∧
    ((exactMatches c2cands (some Side.buy) 100).length ≠ 1 →
      reconcile_mixin ("7203") ("E123") 100 (some Side.buy) c2cands =
        ReconcileOutcome.unresolvedAll (c2cands.map Candidate.id))) :=
  c2_mixin_exact_unique_match ("7203") ("E123") 100 (some Side.buy) c2cands
    (by decide) (by decide) (by decide) (by decide) (by decide)

/-! ## Manual market close (`manual_close_item`, src/logic.py lines 532-593) -/

/-- The observable effect of one `manual_close_item` call: the resulting
item row, whether any broker HTTP request was issued, and how many database
rows were written (item updates, order inserts and event/debug log rows). -/
structure ManualCloseOutcome where
  itemAfter : BatchItem
  madeHttpCall : Bool
  dbWrites : Nat
  deriving DecidableEq, Repr

/-- Whether `_cancel_order_if_needed` issues an HTTP request: it returns
before the request when the order id or the token is falsy. -/
def cancel_call_made (orderId token : Option String) : Bool :=
  pyTruthyOptStr orderId && pyTruthyOptStr token

/-- Embedding of `manual_close_item` for an existing item.  Guard order as in the source:
no active API account; already-CLOSED item; margin item without a hold id;
no remaining quantity — each returns with no broker call and no database
write.  Only then are the TP/SL cancels attempted, the exit payload built
(which raises for a margin item whose hold id is not well-formed), the debug
payload logged, and the market order posted; any exception in that block
marks the item ERROR. -/
def manual_close_item (hasApi : Bool) (token : Option String) (item : BatchItem)
    (cancelTp cancelSl : CancelHttpResult) (post : Except String String) : ManualCloseOutcome :=
  if ¬ hasApi then ⟨item, false, 0⟩
  else if item.status = ItemStatus.CLOSED then ⟨item, false, 0⟩
  else if item.product = Product.margin ∧ ¬ pyTruthyOptStr item.hold_id then ⟨item, false, 0⟩
  else if max (item.entry_filled_qty - item.closed_qty) 0 ≤ 0 then ⟨item, false, 0⟩
  else
    match cancel_order_if_needed item.tp_order_id token cancelTp with
    | Except.error e =>
      ⟨{ item with status := ItemStatus.ERROR, last_error := some ("manual_close: " ++ e) },
        cancel_call_made item.tp_order_id token, 1⟩
    | Except.ok _ =>
      match cancel_order_if_needed item.sl_order_id token cancelSl with
      | Except.error e =>
        ⟨{ item with status := ItemStatus.ERROR, last_error := some ("manual_close: " ++ e) },
          cancel_call_made item.tp_order_id token || cancel_call_made item.sl_order_id token, 1⟩
      | Except.ok _ =>
        if item.product = Product.margin ∧ ¬ is_valid_hold_id (item.hold_id.getD ("")) then
          ⟨{ item with status := ItemStatus.ERROR, last_error := some ("manual_close: HoldID不正") },
            cancel_call_made item.tp_order_id token || cancel_call_made item.sl_order_id token, 1⟩
        else if ¬ pyTruthyOptStr token then
          ⟨{ item with status := ItemStatus.ERROR, last_error := some ("manual_close: token") },
            cancel_call_made item.tp_order_id token || cancel_call_made item.sl_order_id token, 2⟩
        else
          match post with
          | Except.error e =>
            ⟨{ item with status := ItemStatus.ERROR, last_error := some ("manual_close: " ++ e) },
              true, 2⟩
          | Except.ok oid =>
            ⟨{ item with status := ItemStatus.EOD_MARKET_SENT, eod_order_id := some oid },
              true, 4⟩

/-- C10: when the target item exists and is already CLOSED, or its remaining
quantity (`entry_filled_qty - closed_qty`) is zero or less, `manual_close_item`
is a no-op: no broker request is issued, no database row is written, and the
item row (status, order links, quantities) is unchanged. -/
theorem c10_manual_close_noop (hasApi : Bool) (token : Option String) (item : BatchItem)
    (cancelTp cancelSl : CancelHttpResult) (post : Except String String)
    (h : item.status = ItemStatus.CLOSED ∨ item.entry_filled_qty - item.closed_qty ≤ 0) :
    manual_close_item hasApi token item cancelTp cancelSl post = ⟨item, false, 0⟩ := by
  unfold manual_close_item
  by_cases hapi : hasApi
  · rw [if_neg (by simpa using hapi)]
    by_cases hclosed : item.status = ItemStatus.CLOSED
    · rw [if_pos hclosed]
    · rw [if_neg hclosed]
      by_cases hmargin : item.product = Product.margin ∧ ¬ pyTruthyOptStr item.hold_id
      · rw [if_pos hmargin]
      · rw [if_neg hmargin]
        have hrem : max (item.entry_filled_qty - item.closed_qty) 0 ≤ 0 := by
          rcases h with h | h
          · exact absurd h hclosed
          · exact max_le h le_rfl
        rw [if_pos hrem]
  · rw [if_pos (by simpa using hapi)]

/-- Witness for C10: a CLOSED item is untouched by a manual close. -/
theorem c10_manual_close_noop_witness :
    manual_close_item true (some ("T")) c1item CancelHttpResult.okResp CancelHttpResult.okResp
      (Except.ok ("E900")) = ⟨c1item, false, 0⟩ :=
  c10_manual_close_noop true (some ("T")) c1item CancelHttpResult.okResp CancelHttpResult.okResp
    (Except.ok ("E900")) (Or.inl rfl)

end TradeAutomation
